import Mathlib

/-!
Verification of the shiftable-industrial-load constraint formulation in
`simple_industry.py`, `simple_industry_2.py` and `simple_industry_3.py`.

The three Python modules declare Pyomo parameters, variables and constraints
over the index sets LOAD_ZONES and TIMEPOINTS supplied by the host framework.
We embed them shallowly: zones are naturals `0, ..., nz-1`, timepoints are the
naturals `1, ..., N` (matching the integer timepoint labels the clamped
variants assume when they compute `t - i` and compare `t` with lengths),
timeseries (cycles) are naturals `0, ..., C-1`, and `tp_ts` assigns each
timepoint its enclosing timeseries.  Real-valued parameters and solver values
are modelled as rationals; the Python float literal `1e-6` is modelled as the
rational `1 / 1000000`.  A feasible solution of a variant is a valuation of
its decision variables satisfying every constraint the variant constructs,
which we collect into one decidable predicate per variant
(`Feasible1`, `Feasible2`, `Feasible3`).
-/

namespace SwitchDR

/-- Rational model of the Python float tolerance `1e-6` used in the
activation lower-bound couplings. -/
def epsQ : ℚ := 1 / 1000000

/-- The immutable data of one optimization run: index-set sizes, time
topology (from switch_model.timescales) and the four demand-response
parameters plus the base demand (from switch_model.balancing.load_zones).
Parameters carry the names of the Pyomo components they embed. -/
structure DRInstance where
  nz : ℕ
  N : ℕ
  C : ℕ
  tp_ts : ℕ → ℕ
  tp_duration_hrs : ℕ → ℚ
  zone_demand_mw : ℕ → ℕ → ℚ
  dr_shift_down_limit : ℕ → ℕ → ℚ
  dr_shift_up_limit : ℕ → ℕ → ℚ
  response_time : ℕ → ℕ → ℚ
  recovery_time : ℕ → ℕ → ℚ

/-- The ordered timepoint index set: `1, ..., N`. -/
def TIMEPOINTS (I : DRInstance) : List ℕ :=
  (List.range I.N).map (fun k => k + 1)

/-- The zone index set: `0, ..., nz - 1`. -/
def LOAD_ZONES (I : DRInstance) : List ℕ :=
  List.range I.nz

/-- The timeseries (cycle) index set: `0, ..., C - 1`. -/
def TIMESERIES (I : DRInstance) : List ℕ :=
  List.range I.C

/-- The ordered list of timepoints belonging to timeseries `ts`
(Pyomo `m.TPS_IN_TS[ts]`). -/
def TPS_IN_TS (I : DRInstance) (ts : ℕ) : List ℕ :=
  (TIMEPOINTS I).filter (fun t => I.tp_ts t == ts)

/-- Pyomo `m.TPS_IN_TS[ts].prevw(t, i)`: the timepoint `i` positions before
`t` in the ordered timeseries `l`, wrapping at the cycle boundary.  Stated on
the explicit list: with `k` the position of `t`, it returns the element at
position `(k - i) mod length`, computed here in ℕ as
`(k + length - i % length) % length`. -/
def prevw (l : List ℕ) (t : ℕ) (i : ℕ) : ℕ :=
  l.getD ((l.indexOf t + l.length - i % l.length) % l.length) 0

/-- The domain conditions Pyomo attaches to the four parameters
(`within=NonNegativeReals` on all four, and the `validate` callback of
`dr_shift_down_limit`, which requires the value not to exceed the base
demand at the same zone and timepoint). -/
@[reducible] def ParamsValid (I : DRInstance) : Prop :=
  ∀ z ∈ LOAD_ZONES I, ∀ t ∈ TIMEPOINTS I,
    0 ≤ I.dr_shift_down_limit z t ∧ 0 ≤ I.dr_shift_up_limit z t ∧
    0 ≤ I.response_time z t ∧ 0 ≤ I.recovery_time z t ∧
    I.dr_shift_down_limit z t ≤ I.zone_demand_mw z t

/-! ### simple_industry_3.py (the refined formulation) -/

/-- The decision variables of `simple_industry_3.py`: `ShiftDemandUp`,
`ShiftDemandDown` (non-negative, bounded by the limits), `RecoveryDemand`
(within Reals), `shift_demand_abs` (non-negative) and the binary
`is_DR_active`, each indexed by zone and timepoint. -/
structure Sol3 where
  ShiftDemandUp : ℕ → ℕ → ℚ
  ShiftDemandDown : ℕ → ℕ → ℚ
  RecoveryDemand : ℕ → ℕ → ℚ
  shift_demand_abs : ℕ → ℕ → ℚ
  is_DR_active : ℕ → ℕ → ℚ

/-- The `ShiftDemand` Expression of `simple_industry_3.py`:
`ShiftDemandUp[z,t] - ShiftDemandDown[z,t]`. -/
def ShiftDemand (S : Sol3) (z t : ℕ) : ℚ :=
  S.ShiftDemandUp z t - S.ShiftDemandDown z t

/-- `n_steps_back` from `recovery_demand_rule`:
`int(m.recovery_time[z, t] / m.tp_duration_hrs[t])`.  Both quantities are
non-negative in a valid model, so Python int() truncation is the floor. -/
def n_steps_back (I : DRInstance) (z t : ℕ) : ℕ :=
  (I.recovery_time z t / I.tp_duration_hrs t).floor.toNat

/-- The weight the SOURCE gives the term `i` steps back in
`recovery_demand_rule` of `simple_industry_3.py`:
`1 - i * m.tp_duration_hrs[i] / m.recovery_time[z, t]`.
Note that the source subscripts `tp_duration_hrs` with the bare loop
counter `i`, treating the lookback count itself as a timepoint label. -/
def recovery_weight_code (I : DRInstance) (z t i : ℕ) : ℚ :=
  1 - (i : ℚ) * I.tp_duration_hrs i / I.recovery_time z t

/-- The weight the SPEC describes for the same term (section 4.5):
`1 - i * stepDuration(prev(t,i)) / RecoveryDuration[z,t]`, the duration
being that of the prior timepoint `prevw(t, i)`.  Stated only for
comparison with `recovery_weight_code`. -/
def recovery_weight_spec (I : DRInstance) (z t i : ℕ) : ℚ :=
  1 - (i : ℚ) * I.tp_duration_hrs (prevw (TPS_IN_TS I (I.tp_ts t)) t i) /
    I.recovery_time z t

/-- `recovery_demand_rule` of `simple_industry_3.py`:
`RecoveryDemand[z,t]` equals the sum, over `i = n_steps_back, ..., 1`, of
`ShiftDemand[z, TPS_IN_TS[tp_ts[t]].prevw(t, i)]` times
`recovery_weight_code`.  Python iterates `range(n, 0, -1)`; the sum is
order-independent so we iterate `1, ..., n`. -/
@[reducible] def recovery_demand_rule (I : DRInstance) (S : Sol3) (z t : ℕ) : Prop :=
  S.RecoveryDemand z t =
    (((List.range (n_steps_back I z t)).map (fun j => j + 1)).map
      (fun i => ShiftDemand S z (prevw (TPS_IN_TS I (I.tp_ts t)) t i) *
        recovery_weight_code I z t i)).sum

/-- `dr_min_interval_rule` of `simple_industry_3.py`: the activation sum
over the six wrapped predecessors `prevw(t, 1), ..., prevw(t, 6)` is at
most 1.  The list of six indices is never empty, so the `Constraint.Feasible`
branch of the source is dead. -/
@[reducible] def dr_min_interval_rule3 (I : DRInstance) (S : Sol3) (z t : ℕ) : Prop :=
  (((List.range 6).map (fun j => j + 1)).map
    (fun i => S.is_DR_active z (prevw (TPS_IN_TS I (I.tp_ts t)) t i))).sum ≤ 1

/-- `dr_six_hour_limit_rule_up` of `simple_industry_3.py`: the sum of
`ShiftDemandUp` over the timepoints of timeseries `ts` is bounded by
`dr_shift_up_limit` at the first of those timepoints
(`six_hour_timepoints[0]`). -/
@[reducible] def dr_six_hour_limit_rule_up (I : DRInstance) (S : Sol3) (z ts : ℕ) : Prop :=
  ((TPS_IN_TS I ts).map (fun t => S.ShiftDemandUp z t)).sum ≤
    I.dr_shift_up_limit z ((TPS_IN_TS I ts).getD 0 0)

/-- `dr_six_hour_limit_rule_down` of `simple_industry_3.py`. -/
@[reducible] def dr_six_hour_limit_rule_down (I : DRInstance) (S : Sol3) (z ts : ℕ) : Prop :=
  ((TPS_IN_TS I ts).map (fun t => S.ShiftDemandDown z t)).sum ≤
    I.dr_shift_down_limit z ((TPS_IN_TS I ts).getD 0 0)

/-- A feasible solution of the model built by
`simple_industry_3.define_components`: the variable domains and bounds
together with every constraint of the file, in source order.  The
`Is_DR_Active_Constraint` divides by `dr_shift_up_limit[z,t]`; Pyomo can
only build that constraint when the limit is nonzero (see
`is_dr_active_rule_expr`), so this predicate describes the models whose
construction succeeded. -/
@[reducible] def Feasible3 (I : DRInstance) (S : Sol3) : Prop :=
  (∀ z ∈ LOAD_ZONES I, ∀ t ∈ TIMEPOINTS I,
    (S.is_DR_active z t = 0 ∨ S.is_DR_active z t = 1) ∧
    (0 ≤ S.ShiftDemandUp z t ∧ S.ShiftDemandUp z t ≤ I.dr_shift_up_limit z t) ∧
    (0 ≤ S.ShiftDemandDown z t ∧
      S.ShiftDemandDown z t ≤ I.dr_shift_down_limit z t) ∧
    0 ≤ S.shift_demand_abs z t ∧
    S.shift_demand_abs z t ≥ ShiftDemand S z t ∧
    S.shift_demand_abs z t ≥ -ShiftDemand S z t ∧
    S.ShiftDemandUp z t ≤ S.is_DR_active z t * I.dr_shift_up_limit z t ∧
    S.ShiftDemandDown z t ≤ S.is_DR_active z t * I.dr_shift_down_limit z t ∧
    recovery_demand_rule I S z t ∧
    S.is_DR_active z t ≥
      S.shift_demand_abs z t / I.dr_shift_up_limit z t - epsQ ∧
    dr_min_interval_rule3 I S z t ∧
    ShiftDemand S z t ≤ S.is_DR_active z t * I.dr_shift_up_limit z t ∧
    ShiftDemand S z t ≥ -(S.is_DR_active z t * I.dr_shift_down_limit z t)) ∧
  (∀ z ∈ LOAD_ZONES I, ∀ ts ∈ TIMESERIES I,
    dr_six_hour_limit_rule_up I S z ts ∧
    dr_six_hour_limit_rule_down I S z ts ∧
    ((TPS_IN_TS I ts).map
      (fun t => ShiftDemand S z t + S.RecoveryDemand z t)).sum = 0)

/-- A concrete one-zone instance with a single six-step cycle of one-hour
steps, used to witness the feasibility theorems. -/
def cInst3 : DRInstance where
  nz := 1
  N := 6
  C := 1
  tp_ts := fun _ => 0
  tp_duration_hrs := fun _ => 1
  zone_demand_mw := fun _ _ => 10
  dr_shift_down_limit := fun _ _ => 5
  dr_shift_up_limit := fun _ _ => 10
  response_time := fun _ _ => 1
  recovery_time := fun _ _ => 2

/-- The all-zero valuation of the refined-formulation variables. -/
def zeroSol3 : Sol3 where
  ShiftDemandUp := fun _ _ => 0
  ShiftDemandDown := fun _ _ => 0
  RecoveryDemand := fun _ _ => 0
  shift_demand_abs := fun _ _ => 0
  is_DR_active := fun _ _ => 0

/-- Like `zeroSol3` but with the activation indicator set at timepoint 1,
while every shift quantity stays zero. -/
def oneSol3 : Sol3 where
  ShiftDemandUp := fun _ _ => 0
  ShiftDemandDown := fun _ _ => 0
  RecoveryDemand := fun _ _ => 0
  shift_demand_abs := fun _ _ => 0
  is_DR_active := fun _ t => if t = 1 then 1 else 0

lemma zeroSol3_feasible : Feasible3 cInst3 zeroSol3 := by decide!

lemma oneSol3_feasible : Feasible3 cInst3 oneSol3 := by decide!

/-! ### simple_industry_2.py (the second variant) -/

/-- The decision variables of `simple_industry_2.py`: the signed
`ShiftDemand` (bounded by `[-dr_shift_down_limit, dr_shift_up_limit]`),
`RecoveryDemand` (non-negative), `shift_demand_abs` (non-negative) and the
binary `is_DR_active`. -/
structure Sol2 where
  ShiftDemand : ℕ → ℕ → ℚ
  RecoveryDemand : ℕ → ℕ → ℚ
  shift_demand_abs : ℕ → ℕ → ℚ
  is_DR_active : ℕ → ℕ → ℚ

/-- `recovery_demand_rule` of `simple_industry_2.py`: for `t > 1`,
`RecoveryDemand[z,t] = RecoveryDemand[z,t-1]
  + (zone_demand_mw[z,t] - ShiftDemand[z,t-1]) / recovery_time[z,t]`;
at `t = 1` the rule returns `Constraint.Feasible`, modelled by the vacuous
implication. -/
@[reducible] def recovery_demand_rule2 (I : DRInstance) (S : Sol2) (z t : ℕ) : Prop :=
  1 < t →
    S.RecoveryDemand z t = S.RecoveryDemand z (t - 1) +
      (I.zone_demand_mw z t - S.ShiftDemand z (t - 1)) / I.recovery_time z t

/-- The clamped lookback index list
`[t - i for i in range(1, k + 1) if t - i >= 1]` shared by the
`dr_min_interval_rule` of `simple_industry.py` (k = 3) and
`simple_industry_2.py` (k = 6). -/
def valid_indices_clamped (t k : ℕ) : List ℕ :=
  (((List.range k).map (fun j => j + 1)).filter
    (fun i => decide (1 ≤ t - i))).map (fun i => t - i)

/-- `dr_min_interval_rule` of `simple_industry_2.py`: when the clamped
six-step lookback list is nonempty, the activation sum over it is at most 1;
when it is empty the source returns `Constraint.Feasible`. -/
@[reducible] def dr_min_interval_rule2 (I : DRInstance) (S : Sol2) (z t : ℕ) : Prop :=
  valid_indices_clamped t 6 ≠ [] →
    ((valid_indices_clamped t 6).map (fun ti => S.is_DR_active z ti)).sum ≤ 1

/-- `enforce_preparation_time_rule` of `simple_industry_2.py`, on an
indicator value `x`: if the timepoint index is at most the response time,
the indicator is forced to 0, otherwise the rule is `Constraint.Feasible`. -/
@[reducible] def enforce_preparation_time_rule (I : DRInstance) (x : ℚ) (z t : ℕ) : Prop :=
  (t : ℚ) ≤ I.response_time z t → x = 0

/-- `prevent_dr_in_last_periods_rule` of `simple_industry_2.py`, on an
indicator value `x`: if `t > len(TIMEPOINTS) - recovery_time[z,t]`, the
indicator is forced to 0, otherwise the rule is `Constraint.Feasible`. -/
@[reducible] def prevent_dr_in_last_periods_rule (I : DRInstance) (x : ℚ) (z t : ℕ) : Prop :=
  (I.N : ℚ) - I.recovery_time z t < (t : ℚ) → x = 0

/-- A feasible solution of the model built by
`simple_industry_2.define_components`: variable domains and bounds together
with every constraint of the file, in source order. -/
@[reducible] def Feasible2 (I : DRInstance) (S : Sol2) : Prop :=
  (∀ z ∈ LOAD_ZONES I, ∀ t ∈ TIMEPOINTS I,
    (S.is_DR_active z t = 0 ∨ S.is_DR_active z t = 1) ∧
    (-(I.dr_shift_down_limit z t) ≤ S.ShiftDemand z t ∧
      S.ShiftDemand z t ≤ I.dr_shift_up_limit z t) ∧
    0 ≤ S.RecoveryDemand z t ∧
    0 ≤ S.shift_demand_abs z t ∧
    S.shift_demand_abs z t ≥ S.ShiftDemand z t ∧
    S.shift_demand_abs z t ≥ -S.ShiftDemand z t ∧
    recovery_demand_rule2 I S z t ∧
    S.is_DR_active z t ≥
      S.shift_demand_abs z t / I.dr_shift_up_limit z t - epsQ ∧
    dr_min_interval_rule2 I S z t ∧
    enforce_preparation_time_rule I (S.is_DR_active z t) z t ∧
    prevent_dr_in_last_periods_rule I (S.is_DR_active z t) z t ∧
    S.ShiftDemand z t ≤ S.is_DR_active z t * I.dr_shift_up_limit z t ∧
    S.ShiftDemand z t ≥ -(S.is_DR_active z t * I.dr_shift_down_limit z t)) ∧
  (∀ z ∈ LOAD_ZONES I, ∀ ts ∈ TIMESERIES I,
    ((TPS_IN_TS I ts).map (fun t => S.ShiftDemand z t)).sum = 0)

/-- A concrete instance for the second variant: one zone, five one-hour
steps in one cycle, zero base demand, response time 3, recovery time 1
(the Scenario D shape of the spec). -/
def cInst2 : DRInstance where
  nz := 1
  N := 5
  C := 1
  tp_ts := fun _ => 0
  tp_duration_hrs := fun _ => 1
  zone_demand_mw := fun _ _ => 0
  dr_shift_down_limit := fun _ _ => 0
  dr_shift_up_limit := fun _ _ => 1
  response_time := fun _ _ => 3
  recovery_time := fun _ _ => 1

/-- The all-zero valuation of the second-variant variables. -/
def zeroSol2 : Sol2 where
  ShiftDemand := fun _ _ => 0
  RecoveryDemand := fun _ _ => 0
  shift_demand_abs := fun _ _ => 0
  is_DR_active := fun _ _ => 0

lemma zeroSol2_feasible : Feasible2 cInst2 zeroSol2 := by decide!

/-! ### simple_industry.py (the first variant) -/

/-- The decision variables of `simple_industry.py`: the signed
`ShiftDemand` (bounded by `[-dr_shift_down_limit, dr_shift_up_limit]`),
the binary `is_DR_active`, and the non-negative `dr_shift_down_active`
and `shift_demand_abs`. -/
structure Sol1 where
  ShiftDemand : ℕ → ℕ → ℚ
  dr_shift_down_active : ℕ → ℕ → ℚ
  shift_demand_abs : ℕ → ℕ → ℚ
  is_DR_active : ℕ → ℕ → ℚ

/-- `recovery_constraint_rule` of `simple_industry.py`: with
`original_demand = zone_demand_mw[z,t]` and
`reduced_demand = ShiftDemand[z,t] + original_demand`, when
`recovery_time[z,t] > 0` the rule constrains
`ShiftDemand[z,t] = (original_demand - reduced_demand) / recovery_time[z,t]`;
otherwise it returns `Constraint.Feasible`. -/
@[reducible] def recovery_constraint_rule (I : DRInstance) (S : Sol1) (z t : ℕ) : Prop :=
  0 < I.recovery_time z t →
    S.ShiftDemand z t =
      (I.zone_demand_mw z t - (S.ShiftDemand z t + I.zone_demand_mw z t)) /
        I.recovery_time z t

/-- `dr_min_interval_rule` of `simple_industry.py`: when the clamped
three-step lookback list is nonempty, the activation sum over it is at
most 1; when it is empty the source returns `Constraint.Feasible`. -/
@[reducible] def dr_min_interval_rule1 (I : DRInstance) (S : Sol1) (z t : ℕ) : Prop :=
  valid_indices_clamped t 3 ≠ [] →
    ((valid_indices_clamped t 3).map (fun ti => S.is_DR_active z ti)).sum ≤ 1

/-- A feasible solution of the model built by
`simple_industry.define_components`: variable domains and bounds together
with every constraint of the file, in source order. -/
@[reducible] def Feasible1 (I : DRInstance) (S : Sol1) : Prop :=
  (∀ z ∈ LOAD_ZONES I, ∀ t ∈ TIMEPOINTS I,
    (-(I.dr_shift_down_limit z t) ≤ S.ShiftDemand z t ∧
      S.ShiftDemand z t ≤ I.dr_shift_up_limit z t) ∧
    recovery_constraint_rule I S z t ∧
    (S.is_DR_active z t = 0 ∨ S.is_DR_active z t = 1) ∧
    0 ≤ S.dr_shift_down_active z t ∧
    S.dr_shift_down_active z t ≤
      I.dr_shift_down_limit z t * S.is_DR_active z t ∧
    S.dr_shift_down_active z t ≥ S.ShiftDemand z t ∧
    0 ≤ S.shift_demand_abs z t ∧
    S.shift_demand_abs z t ≥ S.ShiftDemand z t ∧
    S.shift_demand_abs z t ≥ -S.ShiftDemand z t ∧
    S.dr_shift_down_active z t ≥ S.shift_demand_abs z t - epsQ ∧
    dr_min_interval_rule1 I S z t) ∧
  (∀ z ∈ LOAD_ZONES I, ∀ ts ∈ TIMESERIES I,
    ((TPS_IN_TS I ts).map (fun t => S.ShiftDemand z t)).sum = 0)

/-- A concrete instance for the first variant: one zone, four one-hour
steps in one cycle. -/
def cInst1 : DRInstance where
  nz := 1
  N := 4
  C := 1
  tp_ts := fun _ => 0
  tp_duration_hrs := fun _ => 1
  zone_demand_mw := fun _ _ => 1
  dr_shift_down_limit := fun _ _ => 0
  dr_shift_up_limit := fun _ _ => 1
  response_time := fun _ _ => 1
  recovery_time := fun _ _ => 2

/-- The all-zero valuation of the first-variant variables. -/
def zeroSol1 : Sol1 where
  ShiftDemand := fun _ _ => 0
  dr_shift_down_active := fun _ _ => 0
  shift_demand_abs := fun _ _ => 0
  is_DR_active := fun _ _ => 0

lemma zeroSol1_feasible : Feasible1 cInst1 zeroSol1 := by decide!

/-- A three-step instance for the first variant, used to exhibit an
unenforced cooldown window at the end of the horizon. -/
def cInst1end : DRInstance where
  nz := 1
  N := 3
  C := 1
  tp_ts := fun _ => 0
  tp_duration_hrs := fun _ => 1
  zone_demand_mw := fun _ _ => 1
  dr_shift_down_limit := fun _ _ => 0
  dr_shift_up_limit := fun _ _ => 1
  response_time := fun _ _ => 1
  recovery_time := fun _ _ => 2

/-- A valuation for `cInst1end` that activates the indicator at the two
final timepoints while every continuous quantity stays zero. -/
def tailSol1 : Sol1 where
  ShiftDemand := fun _ _ => 0
  dr_shift_down_active := fun _ _ => 0
  shift_demand_abs := fun _ _ => 0
  is_DR_active := fun _ t => if 2 ≤ t then 1 else 0

lemma tailSol1_feasible : Feasible1 cInst1end tailSol1 := by decide!

/-! ### Constraint construction and data loading -/

/-- The right-hand side Pyomo must build for `is_dr_active_rule` (present
identically in `simple_industry_2.py` and `simple_industry_3.py`):
`shift_demand_abs[z,t] / dr_shift_up_limit[z,t] - 1e-6`.  The source
performs the division unconditionally; when the limit parameter is 0 the
Python division raises ZeroDivisionError and the model is not built,
modelled here by `none`. -/
def is_dr_active_rule_expr (up absv : ℚ) : Option ℚ :=
  if up = 0 then none else some (absv / up - epsQ)

/-- The `validate` callback of the `dr_shift_down_limit` parameter
declaration: a supplied value is accepted iff it does not exceed the base
demand at the same zone and timepoint. -/
def dr_shift_down_limit_validate (I : DRInstance) (value : ℚ) (z t : ℕ) : Bool :=
  decide (value ≤ I.zone_demand_mw z t)

/-- `default=0.0` of the `dr_shift_down_limit` parameter declaration. -/
def dr_shift_down_limit_default : ℚ := 0

/-- `default=float(inf)` of the `dr_shift_up_limit` parameter declaration,
modelled as the top element of `WithTop ℚ`. -/
def dr_shift_up_limit_default : WithTop ℚ := ⊤

/-- `default=1.0` of the `response_time` parameter declaration. -/
def response_time_default : ℚ := 1

/-- `default=2.0` of the `recovery_time` parameter declaration. -/
def recovery_time_default : ℚ := 2

/-- Pyomo construction of the `dr_shift_down_limit` parameter from the
optional input table: every supplied value is run through the `validate`
callback at data-validation time; if any value is rejected the build fails
(`none`) and the model is not built, otherwise each entry resolves to the
supplied value or to the declared default of 0. -/
def loadDownLimit (I : DRInstance) (downIn : ℕ → ℕ → Option ℚ) :
    Option (ℕ → ℕ → ℚ) :=
  if (LOAD_ZONES I).all (fun z => (TIMEPOINTS I).all (fun t =>
      match downIn z t with
      | some v => dr_shift_down_limit_validate I v z t
      | none => true))
  then some (fun z t => (downIn z t).getD dr_shift_down_limit_default)
  else none

/-- Resolution of one `dr_shift_up_limit` entry from the optional input
table: the supplied value, or the infinite default. -/
def loadUpLimit (upIn : ℕ → ℕ → Option ℚ) (z t : ℕ) : WithTop ℚ :=
  ((upIn z t).map (fun v => (v : WithTop ℚ))).getD dr_shift_up_limit_default

/-- Resolution of one `response_time` entry from the optional input table:
the supplied value, or the default of 1. -/
def loadResponseTime (respIn : ℕ → ℕ → Option ℚ) (z t : ℕ) : ℚ :=
  (respIn z t).getD response_time_default

/-- Resolution of one `recovery_time` entry from the optional input table:
the supplied value, or the default of 2. -/
def loadRecoveryTime (recIn : ℕ → ℕ → Option ℚ) (z t : ℕ) : ℚ :=
  (recIn z t).getD recovery_time_default

/-- An instance whose first timepoint lasts two hours while the later ones
last one hour, exposing the `tp_duration_hrs[i]` subscript of
`recovery_demand_rule`: at `t = 3` the code weight and the spec weight for
the step one position back differ. -/
def cInstDur : DRInstance where
  nz := 1
  N := 4
  C := 1
  tp_ts := fun _ => 0
  tp_duration_hrs := fun t => if t = 1 then 2 else 1
  zone_demand_mw := fun _ _ => 10
  dr_shift_down_limit := fun _ _ => 10
  dr_shift_up_limit := fun _ _ => 10
  response_time := fun _ _ => 1
  recovery_time := fun _ _ => 2

/-! ### Helper lemmas about the time topology -/

lemma mem_TIMEPOINTS {I : DRInstance} {t : ℕ} :
    t ∈ TIMEPOINTS I ↔ 1 ≤ t ∧ t ≤ I.N := by
  simp only [TIMEPOINTS, List.mem_map, List.mem_range]
  constructor
  · rintro ⟨k, hk, rfl⟩; omega
  · rintro ⟨h1, h2⟩; exact ⟨t - 1, by omega, by omega⟩

lemma mem_TPS_IN_TS {I : DRInstance} {ts t : ℕ} :
    t ∈ TPS_IN_TS I ts ↔ t ∈ TIMEPOINTS I ∧ I.tp_ts t = ts := by
  simp [TPS_IN_TS, List.mem_filter]

lemma TPS_IN_TS_nodup (I : DRInstance) (ts : ℕ) : (TPS_IN_TS I ts).Nodup := by
  apply List.Nodup.filter
  exact (List.nodup_range I.N).map (fun a b h => by omega)

lemma indexOf_getD_of_nodup {l : List ℕ} (hnd : l.Nodup) {k : ℕ}
    (hk : k < l.length) : l.indexOf (l.getD k 0) = k := by
  rw [List.getD_eq_getElem l 0 hk]
  exact List.indexOf_getElem hnd k hk

lemma prevw_getD {l : List ℕ} (hnd : l.Nodup) {k : ℕ} (hk : k < l.length)
    (i : ℕ) :
    prevw l (l.getD k 0) i =
      l.getD ((k + l.length - i % l.length) % l.length) 0 := by
  unfold prevw
  rw [indexOf_getD_of_nodup hnd hk]

lemma window_index_eq {len q i : ℕ} (hlen : 6 ≤ len) (h1 : 1 ≤ i)
    (h2 : i ≤ 6) :
    ((q + 6) % len + len - i % len) % len = (q + (6 - i)) % len := by
  by_cases hi : i < len
  · rw [Nat.mod_eq_of_lt hi]
    have hsplit : (q + 6) % len + len - i = (q + 6) % len + (len - i) := by
      omega
    rw [hsplit, Nat.mod_add_mod]
    have hre : q + 6 + (len - i) = q + (6 - i) + len := by omega
    rw [hre, Nat.add_mod_right]
  · have hil : i = len := by omega
    have h6 : len = 6 := by omega
    subst h6
    rw [hil, Nat.mod_self, Nat.sub_zero, Nat.mod_add_mod]
    have hre : q + 6 + 6 = q + (6 - 6) + 6 + 6 := by omega
    rw [hre, Nat.add_mod_right, Nat.add_mod_right]

/-! ### Claim theorems -/

/-- C1: in the refined formulation, for every zone and every cycle
(timeseries), every feasible solution satisfies the cycle energy balance:
the sum over all time steps in the cycle of
`ShiftDemand[z,t] + RecoveryDemand[z,t]` equals 0
(constraint `DR_Shift_Net_Zero` of `simple_industry_3.py`). -/
theorem c1_cycle_net_zero (I : DRInstance) (S : Sol3) (hF : Feasible3 I S) :
    ∀ z ∈ LOAD_ZONES I, ∀ ts ∈ TIMESERIES I,
      ((TPS_IN_TS I ts).map
        (fun t => ShiftDemand S z t + S.RecoveryDemand z t)).sum = 0 :=
  fun z hz ts hts => (hF.2 z hz ts hts).2.2

theorem c1_cycle_net_zero_witness :
    ((TPS_IN_TS cInst3 0).map
      (fun t => ShiftDemand zeroSol3 0 t + zeroSol3.RecoveryDemand 0 t)).sum = 0 :=
  c1_cycle_net_zero cInst3 zeroSol3 zeroSol3_feasible 0 (by decide!) 0 (by decide!)

/-- C10: in the refined formulation, for every zone and every cycle, every
feasible solution satisfies the per-cycle aggregate caps: the sum of
`ShiftDemandUp` over the cycle is at most `dr_shift_up_limit` at the first
timepoint of the cycle, and likewise for `ShiftDemandDown` with
`dr_shift_down_limit` (constraints `DR_Six_Hour_Limit_Constraint_Up` and
`DR_Six_Hour_Limit_Constraint_Down` of `simple_industry_3.py`). -/
theorem c10_cycle_aggregate_caps (I : DRInstance) (S : Sol3)
    (hF : Feasible3 I S) :
    ∀ z ∈ LOAD_ZONES I, ∀ ts ∈ TIMESERIES I,
      ((TPS_IN_TS I ts).map (fun t => S.ShiftDemandUp z t)).sum ≤
        I.dr_shift_up_limit z ((TPS_IN_TS I ts).getD 0 0) ∧
      ((TPS_IN_TS I ts).map (fun t => S.ShiftDemandDown z t)).sum ≤
        I.dr_shift_down_limit z ((TPS_IN_TS I ts).getD 0 0) :=
  fun z hz ts hts => ⟨(hF.2 z hz ts hts).1, (hF.2 z hz ts hts).2.1⟩

theorem c10_cycle_aggregate_caps_witness :
    ((TPS_IN_TS cInst3 0).map (fun t => zeroSol3.ShiftDemandUp 0 t)).sum ≤
      cInst3.dr_shift_up_limit 0 ((TPS_IN_TS cInst3 0).getD 0 0) ∧
    ((TPS_IN_TS cInst3 0).map (fun t => zeroSol3.ShiftDemandDown 0 t)).sum ≤
      cInst3.dr_shift_down_limit 0 ((TPS_IN_TS cInst3 0).getD 0 0) :=
  c10_cycle_aggregate_caps cInst3 zeroSol3 zeroSol3_feasible 0 (by decide!)
    0 (by decide!)

/-- C9: in the first variant (`simple_industry.py`), for every zone and
timepoint with positive `recovery_time`, the `Recovery_Constraint`
algebraically forces `ShiftDemand[z,t] = 0` in every feasible solution, so
this variant permits no load shifting at such steps. -/
theorem c9_first_variant_degenerate (I : DRInstance) (S : Sol1)
    (hF : Feasible1 I S) :
    ∀ z ∈ LOAD_ZONES I, ∀ t ∈ TIMEPOINTS I,
      0 < I.recovery_time z t → S.ShiftDemand z t = 0 := by
  intro z hz t ht hrec
  have hrule := (hF.1 z hz t ht).2.1 hrec
  rw [eq_div_iff (ne_of_gt hrec)] at hrule
  have hx : S.ShiftDemand z t * I.recovery_time z t = -S.ShiftDemand z t := by
    linarith [hrule]
  have h2 : S.ShiftDemand z t * (I.recovery_time z t + 1) = 0 := by
    calc S.ShiftDemand z t * (I.recovery_time z t + 1)
        = S.ShiftDemand z t * I.recovery_time z t + S.ShiftDemand z t := by ring
      _ = -S.ShiftDemand z t + S.ShiftDemand z t := by rw [hx]
      _ = 0 := by ring
  rcases mul_eq_zero.mp h2 with h | h
  · exact h
  · exfalso; linarith

theorem c9_first_variant_degenerate_witness :
    0 < cInst1.recovery_time 0 1 ∧ zeroSol1.ShiftDemand 0 1 = 0 :=
  ⟨by decide!, c9_first_variant_degenerate cInst1 zeroSol1 zeroSol1_feasible
    0 (by decide!) 1 (by decide!) (by decide!)⟩

/-- C6: in every feasible solution of the second variant
(`simple_industry_2.py`), the activation indicator is forced to 0 at every
timepoint whose index is within the response time of the start of the
horizon, and at every timepoint within `recovery_time` of the end of the
horizon; at all other steps the two lockout rules hold for every indicator
value, hence impose no constraint. -/
theorem c6_lockouts (I : DRInstance) (S : Sol2) (hF : Feasible2 I S) :
    ∀ z ∈ LOAD_ZONES I, ∀ t ∈ TIMEPOINTS I,
      ((t : ℚ) ≤ I.response_time z t → S.is_DR_active z t = 0) ∧
      ((I.N : ℚ) - I.recovery_time z t < (t : ℚ) → S.is_DR_active z t = 0) ∧
      (¬ (t : ℚ) ≤ I.response_time z t →
        ∀ x : ℚ, enforce_preparation_time_rule I x z t) ∧
      (¬ (I.N : ℚ) - I.recovery_time z t < (t : ℚ) →
        ∀ x : ℚ, prevent_dr_in_last_periods_rule I x z t) := by
  intro z hz t ht
  obtain ⟨-, -, -, -, -, -, -, -, -, hprep, hlast, -, -⟩ := hF.1 z hz t ht
  exact ⟨hprep, hlast, fun hn x hc => absurd hc hn, fun hn x hc => absurd hc hn⟩

theorem c6_lockouts_witness :
    (((3 : ℕ) : ℚ) ≤ cInst2.response_time 0 3 →
      zeroSol2.is_DR_active 0 3 = 0) ∧
    ((cInst2.N : ℚ) - cInst2.recovery_time 0 3 < ((3 : ℕ) : ℚ) →
      zeroSol2.is_DR_active 0 3 = 0) ∧
    (¬ ((3 : ℕ) : ℚ) ≤ cInst2.response_time 0 3 →
      ∀ x : ℚ, enforce_preparation_time_rule cInst2 x 0 3) ∧
    (¬ (cInst2.N : ℚ) - cInst2.recovery_time 0 3 < ((3 : ℕ) : ℚ) →
      ∀ x : ℚ, prevent_dr_in_last_periods_rule cInst2 x 0 3) :=
  c6_lockouts cInst2 zeroSol2 zeroSol2_feasible 0 (by decide!) 3 (by decide!)

/-- C4: in every feasible solution of the refined formulation,
`ShiftDemandUp[z,t] <= is_DR_active[z,t] * dr_shift_up_limit[z,t]` and
`ShiftDemandDown[z,t] <= is_DR_active[z,t] * dr_shift_down_limit[z,t]`;
consequently the indicator equals 1 whenever the net shift magnitude
exceeds the tolerance `epsQ` scaled by the up limit; and when the shift is
0 the indicator remains free to be 0 or 1, witnessed by two feasible
solutions of a concrete instance that differ only in the indicator while
shifting nothing. -/
theorem c4_activation_linkage (I : DRInstance) (S : Sol3)
    (hV : ParamsValid I) (hF : Feasible3 I S) :
    (∀ z ∈ LOAD_ZONES I, ∀ t ∈ TIMEPOINTS I,
      S.ShiftDemandUp z t ≤ S.is_DR_active z t * I.dr_shift_up_limit z t ∧
      S.ShiftDemandDown z t ≤
        S.is_DR_active z t * I.dr_shift_down_limit z t ∧
      (epsQ * I.dr_shift_up_limit z t < |ShiftDemand S z t| →
        S.is_DR_active z t = 1)) ∧
    (Feasible3 cInst3 zeroSol3 ∧ Feasible3 cInst3 oneSol3 ∧
      ShiftDemand zeroSol3 0 1 = 0 ∧ ShiftDemand oneSol3 0 1 = 0 ∧
      zeroSol3.is_DR_active 0 1 = 0 ∧ oneSol3.is_DR_active 0 1 = 1) := by
  constructor
  · intro z hz t ht
    obtain ⟨hbin, -, -, -, -, -, heu, hed, -, -, -, hzu, hzl⟩ :=
      hF.1 z hz t ht
    refine ⟨heu, hed, ?_⟩
    intro hshift
    rcases hbin with h0 | h1
    · exfalso
      rw [h0, zero_mul] at hzu hzl
      rw [neg_zero] at hzl
      have hs0 : ShiftDemand S z t = 0 := le_antisymm hzu hzl
      rw [hs0, abs_zero] at hshift
      have hup0 : 0 ≤ I.dr_shift_up_limit z t := (hV z hz t ht).2.1
      have heps : (0 : ℚ) ≤ epsQ * I.dr_shift_up_limit z t :=
        mul_nonneg (by norm_num [epsQ]) hup0
      linarith
    · exact h1
  · exact ⟨zeroSol3_feasible, oneSol3_feasible, by decide!, by decide!,
      by decide!, by decide!⟩

theorem c4_activation_linkage_witness :
    zeroSol3.ShiftDemandUp 0 1 ≤
      zeroSol3.is_DR_active 0 1 * cInst3.dr_shift_up_limit 0 1 :=
  ((c4_activation_linkage cInst3 zeroSol3 (by decide!)
    zeroSol3_feasible).1 0 (by decide!) 1 (by decide!)).1

/-- C7: model construction fails at data-validation time when any supplied
down-shift limit exceeds the base demand at its zone and timepoint (the
`validate` callback of `dr_shift_down_limit` rejects it and the parameter
is not built), and succeeds in accepting the parameter whenever every
supplied value satisfies `downLimit[z,t] <= baseDemand[z,t]`. -/
theorem c7_down_limit_validation (I : DRInstance)
    (downIn : ℕ → ℕ → Option ℚ) :
    ((∃ z ∈ LOAD_ZONES I, ∃ t ∈ TIMEPOINTS I, ∃ v,
        downIn z t = some v ∧ I.zone_demand_mw z t < v) →
      loadDownLimit I downIn = none) ∧
    ((∀ z ∈ LOAD_ZONES I, ∀ t ∈ TIMEPOINTS I, ∀ v,
        downIn z t = some v → v ≤ I.zone_demand_mw z t) →
      ∃ p, loadDownLimit I downIn = some p ∧
        ∀ z t, p z t = (downIn z t).getD dr_shift_down_limit_default) := by
  constructor
  · rintro ⟨z, hz, t, ht, v, hv, hlt⟩
    unfold loadDownLimit
    split
    next hcond =>
      exfalso
      rw [List.all_eq_true] at hcond
      have h1 := hcond z hz
      rw [List.all_eq_true] at h1
      have h2 := h1 t ht
      rw [hv] at h2
      simp only [dr_shift_down_limit_validate, decide_eq_true_eq] at h2
      linarith
    next => rfl
  · intro hok
    unfold loadDownLimit
    split
    next => exact ⟨_, rfl, fun z t => rfl⟩
    next hcond =>
      exfalso
      apply hcond
      rw [List.all_eq_true]
      intro z hz
      rw [List.all_eq_true]
      intro t ht
      cases hc : downIn z t with
      | none => rfl
      | some v =>
        simp only [dr_shift_down_limit_validate, decide_eq_true_eq]
        exact hok z hz t ht v hc

theorem c7_down_limit_validation_witness :
    loadDownLimit cInst3 (fun _ _ => some 11) = none :=
  (c7_down_limit_validation cInst3 (fun _ _ => some 11)).1
    ⟨0, by decide!, 1, by decide!, 11, rfl, by decide!⟩

/-- C8: for every zone and timepoint with no supplied input value, the
down-shift limit resolves to its declared default 0, the up-shift limit
resolves to the unbounded default, the response time resolves to the
default 1, and the recovery time resolves to the default 2. -/
theorem c8_param_defaults (I : DRInstance)
    (downIn upIn respIn recIn : ℕ → ℕ → Option ℚ) (z t : ℕ)
    (hd : downIn z t = none) (hu : upIn z t = none)
    (hr : respIn z t = none) (hc : recIn z t = none) :
    (∀ p, loadDownLimit I downIn = some p → p z t = 0) ∧
    loadUpLimit upIn z t = ⊤ ∧
    loadResponseTime respIn z t = 1 ∧
    loadRecoveryTime recIn z t = 2 := by
  refine ⟨?_, ?_, ?_, ?_⟩
  · intro p hp
    unfold loadDownLimit at hp
    split at hp
    · injection hp with h
      rw [← h]
      show (downIn z t).getD dr_shift_down_limit_default = 0
      rw [hd]
      rfl
    · exact Option.noConfusion hp
  · unfold loadUpLimit
    rw [hu]
    rfl
  · unfold loadResponseTime
    rw [hr]
    rfl
  · unfold loadRecoveryTime
    rw [hc]
    rfl

theorem c8_param_defaults_witness :
    (∀ p, loadDownLimit cInst3 (fun _ _ => none) = some p → p 0 1 = 0) ∧
    loadUpLimit (fun _ _ => none) 0 1 = ⊤ ∧
    loadResponseTime (fun _ _ => none) 0 1 = 1 ∧
    loadRecoveryTime (fun _ _ => none) 0 1 = 2 :=
  c8_param_defaults cInst3 (fun _ _ => none) (fun _ _ => none)
    (fun _ _ => none) (fun _ _ => none) 0 1 rfl rfl rfl rfl

/-- C2: on the instance `cInstDur` (first step two hours, later steps one
hour, recovery time 2), at timepoint 3 the recovery window covers
`n_steps_back = 2` prior steps, the step one position back is timepoint 2
whose duration is 1 hour, yet the weight the code computes for that term is
`1 - 1 * tp_duration_hrs[1] / 2 = 0` because the source subscripts
`tp_duration_hrs` with the loop counter, while the weight stated by the
claim, using the duration of the prior step, is `1 - 1 * 1 / 2 = 1/2`. -/
theorem c2_recovery_weight_mismatch :
    n_steps_back cInstDur 0 3 = 2 ∧
    prevw (TPS_IN_TS cInstDur (cInstDur.tp_ts 3)) 3 1 = 2 ∧
    cInstDur.tp_duration_hrs 2 = 1 ∧
    recovery_weight_code cInstDur 0 3 1 = 0 ∧
    recovery_weight_spec cInstDur 0 3 1 = 1 / 2 := by decide!

/-- C3: the construction of the `Is_DR_Active_Constraint` body divides by
`dr_shift_up_limit[z,t]` unconditionally, so at a step whose up limit is 0
the build fails with a division by zero (`none`) instead of skipping the
coupling, while at a nonzero limit it produces the ratio minus the
tolerance. -/
theorem c3_zero_up_limit_division :
    is_dr_active_rule_expr 0 0 = none ∧
    is_dr_active_rule_expr 1 1 = some (1 / 1 - epsQ) := by decide!

/-- C5 (counterexample): a feasible solution of the first variant on a
three-step horizon in which the window of 3 consecutive steps `1, 2, 3`
contains two activated steps: the cooldown constraint at step `t` covers
only the steps strictly before `t`, so the final step is never covered and
the claimed bound fails on this window. -/
theorem c5_window_counterexample :
    Feasible1 cInst1end tailSol1 ∧
    tailSol1.is_DR_active 0 1 + tailSol1.is_DR_active 0 2 +
      tailSol1.is_DR_active 0 3 = 2 :=
  ⟨tailSol1_feasible, by decide!⟩

/-- C5 (amended): in the first variant every window of 3 consecutive steps
that is followed by a further step of the horizon contains at most one
activated step (the constraint at that following step covers exactly the
window; windows containing the final step are unenforced, and at steps with
no predecessor the rule is vacuously satisfied); in the refined formulation
the lookback wraps within the cycle, and every cyclic window of 6
consecutive steps of a cycle of length at least 6 contains at most one
activated step. -/
theorem c5_cooldown_windows (I1 I3 : DRInstance) (S1 : Sol1) (S3 : Sol3)
    (hF1 : Feasible1 I1 S1) (hF3 : Feasible3 I3 S3) :
    (∀ z ∈ LOAD_ZONES I1, ∀ a : ℕ, 1 ≤ a → a + 3 ≤ I1.N →
      S1.is_DR_active z a + S1.is_DR_active z (a + 1) +
        S1.is_DR_active z (a + 2) ≤ 1) ∧
    (∀ z ∈ LOAD_ZONES I3, ∀ ts ∈ TIMESERIES I3,
      6 ≤ (TPS_IN_TS I3 ts).length → ∀ q : ℕ,
      ((List.range 6).map (fun j => S3.is_DR_active z
        ((TPS_IN_TS I3 ts).getD
          ((q + j) % (TPS_IN_TS I3 ts).length) 0))).sum ≤ 1) := by
  constructor
  · intro z hz a ha haN
    have htmem : a + 3 ∈ TIMEPOINTS I1 := mem_TIMEPOINTS.mpr ⟨by omega, haN⟩
    obtain ⟨-, -, -, -, -, -, -, -, -, -, hmi⟩ := hF1.1 z hz (a + 3) htmem
    have d1 : a + 3 - 1 = a + 2 := by omega
    have d2 : a + 3 - 2 = a + 1 := by omega
    have d3 : a + 3 - 3 = a := by omega
    have p1 : decide (1 ≤ a + 2) = true := by
      simp only [decide_eq_true_eq]; omega
    have p2 : decide (1 ≤ a + 1) = true := by
      simp only [decide_eq_true_eq]; omega
    have p3 : decide (1 ≤ a) = true := by
      simp only [decide_eq_true_eq]; omega
    have hl : valid_indices_clamped (a + 3) 3 = [a + 2, a + 1, a] := by
      unfold valid_indices_clamped
      rw [show List.range 3 = [0, 1, 2] from rfl]
      simp only [List.map_cons, List.map_nil, List.filter_cons,
        List.filter_nil, p1, p2, p3, if_true, d1, d2, d3]
    have hsum := hmi (by rw [hl]; exact List.cons_ne_nil _ _)
    rw [hl] at hsum
    simp only [List.map_cons, List.map_nil, List.sum_cons, List.sum_nil,
      add_zero] at hsum
    linarith
  · intro z hz ts hts hlen q
    have hnd : (TPS_IN_TS I3 ts).Nodup := TPS_IN_TS_nodup I3 ts
    have hpos : 0 < (TPS_IN_TS I3 ts).length := by omega
    have hk : (q + 6) % (TPS_IN_TS I3 ts).length <
        (TPS_IN_TS I3 ts).length := Nat.mod_lt _ hpos
    have ht0mem : (TPS_IN_TS I3 ts).getD
        ((q + 6) % (TPS_IN_TS I3 ts).length) 0 ∈ TPS_IN_TS I3 ts := by
      rw [List.getD_eq_getElem _ 0 hk]
      exact List.getElem_mem _
    obtain ⟨ht0tp, ht0ts⟩ := mem_TPS_IN_TS.mp ht0mem
    obtain ⟨-, -, -, -, -, -, -, -, -, -, hmi, -, -⟩ :=
      hF3.1 z hz _ ht0tp
    unfold dr_min_interval_rule3 at hmi
    rw [ht0ts] at hmi
    have hterm : ∀ i, 1 ≤ i → i ≤ 6 →
        prevw (TPS_IN_TS I3 ts)
          ((TPS_IN_TS I3 ts).getD
            ((q + 6) % (TPS_IN_TS I3 ts).length) 0) i =
        (TPS_IN_TS I3 ts).getD
          ((q + (6 - i)) % (TPS_IN_TS I3 ts).length) 0 := by
      intro i h1 h2
      rw [prevw_getD hnd hk i]
      congr 1
      exact window_index_eq hlen h1 h2
    rw [show ((List.range 6).map (fun j => j + 1)) = [1, 2, 3, 4, 5, 6]
      from rfl] at hmi
    simp only [List.map_cons, List.map_nil, List.sum_cons, List.sum_nil,
      add_zero] at hmi
    rw [hterm 1 (by omega) (by omega), hterm 2 (by omega) (by omega),
      hterm 3 (by omega) (by omega), hterm 4 (by omega) (by omega),
      hterm 5 (by omega) (by omega), hterm 6 (by omega) (by omega)] at hmi
    norm_num at hmi
    rw [show List.range 6 = [0, 1, 2, 3, 4, 5] from rfl]
    simp only [List.map_cons, List.map_nil, List.sum_cons, List.sum_nil,
      add_zero]
    norm_num
    linarith

theorem c5_cooldown_windows_witness :
    zeroSol1.is_DR_active 0 1 + zeroSol1.is_DR_active 0 (1 + 1) +
      zeroSol1.is_DR_active 0 (1 + 2) ≤ 1 ∧
    ((List.range 6).map (fun j => zeroSol3.is_DR_active 0
      ((TPS_IN_TS cInst3 0).getD
        ((0 + j) % (TPS_IN_TS cInst3 0).length) 0))).sum ≤ 1 :=
  ⟨(c5_cooldown_windows cInst1 cInst3 zeroSol1 zeroSol3 zeroSol1_feasible
      zeroSol3_feasible).1 0 (by decide!) 1 (by decide!) (by decide!),
    (c5_cooldown_windows cInst1 cInst3 zeroSol1 zeroSol3 zeroSol1_feasible
      zeroSol3_feasible).2 0 (by decide!) 0 (by decide!) (by decide!) 0⟩

end SwitchDR
